import Mathlib

/-!
Shallow embedding of the `Dashboard` component of
`src/frontend/src/App.js` (solana-soldier-mev-bot).

The component-local React state (lines 319-331) becomes the record
`DashState`.  The asynchronous operations become pure transition
functions that take the outcome of every network request as an
explicit argument:

* `fetchData` (lines 333-360) — the refresh cycle, parameterised by a
  `FetchResults` record holding the outcome of the eight requests;
* `rugCheckClick` / `performRugCheckFinish` (lines 362-374 together with
  the disabled attribute of the rugcheck button, lines 611-615) — the
  rug-check workflow, split at its single await point so that a second
  invocation while the first is outstanding can be expressed;
* `applyAction` — the dispatcher over every state-mutating UI operation
  of the component (refresh, tab select, address input, rug-check press,
  rug-check completion, the trending-tab Check button).

Network traffic and toast notifications are modelled as explicit output
lists.  JS numbers are modelled as `ℚ`; absent JSON keys as `Option`.
The `setInterval` scheduling of the mount effect (lines 376-380) is
modelled separately by `ShellEffect`.
-/

namespace SolanaSoldier

/-- JS `x || d` applied to an optional numeric value: `d` when the value
is absent (`undefined`/`null`) or falsy (`0`). -/
def jsNumOr (x : Option ℚ) (d : ℚ) : ℚ :=
  match x with
  | none => d
  | some v => if v = 0 then d else v

/-- Response body of `GET /api/stats`; stored wholesale into the `stats`
state (line 346).  Each counter may be absent, the display defaults it
to 0 (lines 421-455). -/
structure Stats where
  total_users : Option ℚ
  active_wallets : Option ℚ
  total_trades : Option ℚ
  total_profit_usd : Option ℚ
  whale_activities_today : Option ℚ
deriving DecidableEq, Repr

/-- A user row as consumed by the users tab (lines 757-765). -/
structure User where
  id : String
  username : Option String
  telegram_id : ℚ
  credits : Option ℚ
  created_at : String
deriving DecidableEq, Repr

/-- A trade row as consumed by the trades tab (lines 789-813). -/
structure Trade where
  id : String
  trade_type : String
  amount_sol : Option ℚ
  profit_usd : Option ℚ
  status : String
  created_at : String
deriving DecidableEq, Repr

/-- A payment row as consumed by the payments tab (lines 838-853). -/
structure Payment where
  id : String
  user_telegram_id : ℚ
  amount_gbp : ℚ
  crypto_type : String
  status : String
  created_at : String
deriving DecidableEq, Repr

/-- A trending-token row (lines 556-582). -/
structure TrendingToken where
  address : String
  symbol : String
  name : Option String
  price_usd : Option ℚ
  price_change_24h : Option ℚ
  liquidity_usd : Option ℚ
  volume_24h : Option ℚ
deriving DecidableEq, Repr

/-- A whale-activity row (lines 712-734). -/
structure WhaleActivity where
  whale_address : Option String
  action : String
  token_symbol : String
  amount : Option ℚ
  detected_at : String
deriving DecidableEq, Repr

/-- The `details` sub-map of a rug-check response (lines 668-686). -/
structure RugCheckDetails where
  liquidity_usd : Option ℚ
  holder_count : Option ℚ
deriving DecidableEq, Repr

/-- Response body of `POST /api/rugcheck/{address}` (lines 632-689). -/
structure RugCheckResult where
  is_safe : Bool
  risk_score : ℚ
  warnings : Option (List String)
  details : Option RugCheckDetails
deriving DecidableEq, Repr

/-- Response body of `GET /api/users`: `{users: User[]}`; the key may be
absent (`usersRes.data.users || []`, line 347). -/
structure UsersResp where
  users : Option (List User)
deriving DecidableEq, Repr

/-- Response body of `GET /api/trades` (line 348). -/
structure TradesResp where
  trades : Option (List Trade)
deriving DecidableEq, Repr

/-- Response body of `GET /api/payments` (line 349). -/
structure PaymentsResp where
  payments : Option (List Payment)
deriving DecidableEq, Repr

/-- Response body of `GET /api/sol-price` (line 350). -/
structure PriceResp where
  price_usd : Option ℚ
deriving DecidableEq, Repr

/-- Response body of `GET /api/trending-tokens` (line 351). -/
structure TrendingResp where
  tokens : Option (List TrendingToken)
deriving DecidableEq, Repr

/-- Response body of `GET /api/whale-activities` (line 352). -/
structure WhaleResp where
  activities : Option (List WhaleActivity)
deriving DecidableEq, Repr

/-- Response body of `GET /api/trading-stats`, stored wholesale into
`tradingStats` (line 353); the overview tab reads these keys with
defaults (lines 494-506).  The empty object `\x7b\x7d` is the value with
every field absent. -/
structure TradingStats where
  min_profit_target : Option ℚ
  max_trade_time_seconds : Option ℚ
  success_rate : Option ℚ
  trades_today : Option ℚ
deriving DecidableEq, Repr

/-- The empty object `\x7b\x7d` substituted for the trading-stats feed on
failure (line 343). -/
def TradingStats.empty : TradingStats := ⟨none, none, none, none⟩

/-- The seven tab labels of the dashboard (line 460). -/
inductive Tab where
  | overview
  | trending
  | rugcheck
  | whales
  | trades
  | users
  | payments
deriving DecidableEq, Repr

/-- The component-local state of `Dashboard` (lines 319-331), one field
per `useState` hook, in source order. -/
structure DashState where
  stats : Option Stats
  users : List User
  trades : List Trade
  payments : List Payment
  solPrice : ℚ
  loading : Bool
  activeTab : Tab
  trendingTokens : List TrendingToken
  whaleActivities : List WhaleActivity
  tradingStats : Option TradingStats
  rugCheckAddress : String
  rugCheckResult : Option RugCheckResult
  checkingRug : Bool
deriving DecidableEq, Repr

/-- The initial state passed to the `useState` hooks (lines 319-331). -/
def initState : DashState :=
  { stats := none
    users := []
    trades := []
    payments := []
    solPrice := 0
    loading := true
    activeTab := Tab.overview
    trendingTokens := []
    whaleActivities := []
    tradingStats := none
    rugCheckAddress := ""
    rugCheckResult := none
    checkingRug := false }

/-- Outcome of one network request: resolved with a parsed body, or
rejected. -/
inductive Fetched (α : Type) where
  | ok (data : α)
  | failed
deriving DecidableEq, Repr

/-- The outcomes of the eight requests issued by one refresh cycle
(lines 335-344), in source order. -/
structure FetchResults where
  statsR : Fetched Stats
  usersR : Fetched UsersResp
  tradesR : Fetched TradesResp
  paymentsR : Fetched PaymentsResp
  priceR : Fetched PriceResp
  trendingR : Fetched TrendingResp
  whaleR : Fetched WhaleResp
  tradingR : Fetched TradingStats
deriving DecidableEq, Repr

/-- A network request, as issued by the component. -/
inductive Request where
  | getStats
  | getUsers
  | getTrades
  | getPayments
  | getSolPrice
  | getTrendingTokens
  | getWhaleActivities
  | getTradingStats
  | postRugcheck (address : String)
deriving DecidableEq, Repr

/-- A user-visible toast notification. -/
inductive Toast where
  | error (msg : String)
  | success (msg : String)
deriving DecidableEq, Repr

/-- The eight requests issued (concurrently) by every refresh cycle
(lines 336-343). -/
def fetchAllRequests : List Request :=
  [Request.getStats, Request.getUsers, Request.getTrades,
   Request.getPayments, Request.getSolPrice, Request.getTrendingTokens,
   Request.getWhaleActivities, Request.getTradingStats]

/-- `fetchData` (lines 333-360).  The three optional requests carry
their own `.catch` fallback (lines 341-343), so only the five required
ones can reject the `Promise.all`.  If any required request rejects, no
setter runs, one error toast is raised (line 356) and the `finally`
block clears `loading` (line 358).  Otherwise the eight setters of
lines 346-353 run.  Returns the updated state and the toasts raised. -/
def fetchData (st : DashState) (r : FetchResults) : DashState × List Toast :=
  match r.statsR, r.usersR, r.tradesR, r.paymentsR, r.priceR with
  | .ok statsData, .ok usersData, .ok tradesData, .ok paymentsData, .ok priceData =>
    let trendingData : TrendingResp :=
      match r.trendingR with
      | .ok d => d
      | .failed => ⟨some []⟩
    let whaleData : WhaleResp :=
      match r.whaleR with
      | .ok d => d
      | .failed => ⟨some []⟩
    let tradingData : TradingStats :=
      match r.tradingR with
      | .ok d => d
      | .failed => TradingStats.empty
    ({ st with
        stats := some statsData
        users := usersData.users.getD []
        trades := tradesData.trades.getD []
        payments := paymentsData.payments.getD []
        solPrice := jsNumOr priceData.price_usd 0
        trendingTokens := trendingData.tokens.getD []
        whaleActivities := whaleData.activities.getD []
        tradingStats := some tradingData
        loading := false }, [])
  | _, _, _, _, _ =>
    ({ st with loading := false }, [Toast.error "Failed to fetch data"])

/-- The `disabled` attribute of the rugcheck button (line 613):
`checkingRug || !rugCheckAddress`. -/
def rugcheckBtnDisabled (st : DashState) : Bool :=
  st.checkingRug || st.rugCheckAddress == ""

/-- The synchronous front half of `performRugCheck` (lines 362-366), up
to its single await point: the empty-address guard (line 363), then
`setCheckingRug(true)` and the POST request.  Returns the new state and
the requests issued. -/
def performRugCheckStart (st : DashState) : DashState × List Request :=
  if st.rugCheckAddress = "" then (st, [])
  else ({ st with checkingRug := true },
        [Request.postRugcheck st.rugCheckAddress])

/-- One press of the rugcheck button: a disabled button fires no
`onClick`, otherwise `performRugCheck` runs up to its await point. -/
def rugCheckClick (st : DashState) : DashState × List Request :=
  if rugcheckBtnDisabled st then (st, [])
  else performRugCheckStart st

/-- Outcome of the rug-check POST request. -/
inductive RugOutcome where
  | ok (result : RugCheckResult)
  | failed
deriving DecidableEq, Repr

/-- The back half of `performRugCheck` (lines 367-373), run when the
POST settles: on success store the response body and raise a success
toast; on failure raise an error toast; the `finally` block clears
`checkingRug` in both cases. -/
def performRugCheckFinish (st : DashState) (o : RugOutcome) :
    DashState × List Toast :=
  match o with
  | .ok res =>
    ({ st with rugCheckResult := some res, checkingRug := false },
     [Toast.success "Rug check complete!"])
  | .failed =>
    ({ st with checkingRug := false }, [Toast.error "Rug check failed"])

/-- A state-mutating UI operation of the `Dashboard` component. -/
inductive Action where
  /-- A refresh cycle (timer-driven, or the manual refresh button at
  line 410), with the outcomes of its eight requests. -/
  | refresh (r : FetchResults)
  /-- Clicking a tab button (line 463). -/
  | selectTab (t : Tab)
  /-- Typing in the rug-check address input (line 605). -/
  | setAddress (s : String)
  /-- Pressing the rugcheck button (lines 611-615). -/
  | pressRugCheck
  /-- The outstanding rug-check request settling (lines 367-373). -/
  | finishRugCheck (o : RugOutcome)
  /-- The Check button of a trending-token row (lines 571-579). -/
  | pressTrendingCheck (tok : TrendingToken)
deriving DecidableEq, Repr

/-- Dispatcher over the component's operations: new state, requests
issued and toasts raised. -/
def applyAction (st : DashState) (a : Action) :
    DashState × List Request × List Toast :=
  match a with
  | .refresh r =>
    let p := fetchData st r
    (p.1, fetchAllRequests, p.2)
  | .selectTab t => ({ st with activeTab := t }, [], [])
  | .setAddress s => ({ st with rugCheckAddress := s }, [], [])
  | .pressRugCheck =>
    let p := rugCheckClick st
    (p.1, p.2, [])
  | .finishRugCheck o =>
    let p := performRugCheckFinish st o
    (p.1, [], p.2)
  | .pressTrendingCheck tok =>
    ({ st with rugCheckAddress := tok.address, activeTab := Tab.rugcheck },
     [], [])

/-- Running a sequence of operations from a state. -/
def runActions (st : DashState) (acts : List Action) : DashState :=
  acts.foldl (fun s a => (applyAction s a).1) st

/-- Whether the full-screen loading indicator is rendered in place of
the dashboard (lines 382-391). -/
def rendersLoadingScreen (st : DashState) : Bool :=
  st.loading

/-- The five numeric values fed to the overview stat cards
(lines 421-455): each is `stats?.field || 0`. -/
def overviewCounters (st : DashState) : ℚ × ℚ × ℚ × ℚ × ℚ :=
  (jsNumOr (st.stats.bind Stats.total_users) 0,
   jsNumOr (st.stats.bind Stats.active_wallets) 0,
   jsNumOr (st.stats.bind Stats.total_trades) 0,
   jsNumOr (st.stats.bind Stats.total_profit_usd) 0,
   jsNumOr (st.stats.bind Stats.whale_activities_today) 0)

/-- A recurring timer as created by `setInterval`: fires at
`firstFire`, `firstFire + period`, `firstFire + 2*period`, …. -/
structure IntervalTimer where
  period : ℕ
  firstFire : ℕ
deriving DecidableEq, Repr

/-- `setInterval(f, period)` called at absolute time `now`: the first
fire is one full period later. -/
def setIntervalAt (now period : ℕ) : IntervalTimer :=
  ⟨period, now + period⟩

/-- Number of fires of an interval timer at or before absolute time
`stop`. -/
def firesUpTo (t : IntervalTimer) (stop : ℕ) : ℕ :=
  if t.firstFire ≤ stop then (stop - t.firstFire) / t.period + 1 else 0

/-- The scheduling side of the mount effect (lines 376-380): one
immediate `fetchData()` call, plus a 30000 ms interval timer; the
cleanup clears the timer. -/
structure ShellEffect where
  immediateCycles : ℕ
  timer : Option IntervalTimer
deriving DecidableEq, Repr

/-- Mounting the dashboard at absolute time `now` (lines 377-378):
`fetchData()` runs once immediately and `setInterval(fetchData, 30000)`
starts. -/
def mountShell (now : ℕ) : ShellEffect :=
  ⟨1, some (setIntervalAt now 30000)⟩

/-- The effect cleanup (line 379): `clearInterval(interval)`,
unconditionally. -/
def unmountShell (sh : ShellEffect) : ShellEffect :=
  { sh with timer := none }

/-- Timer-driven refresh cycles fired at or before absolute time
`stop`; a cleared timer fires nothing. -/
def timerCycles (sh : ShellEffect) (stop : ℕ) : ℕ :=
  match sh.timer with
  | some t => firesUpTo t stop
  | none => 0

/-! ## Helper lemmas -/

/-- `x || 0` on a present numeric value is that value (also when the
value is `0`). -/
theorem jsNumOr_some_zero (v : ℚ) : jsNumOr (some v) 0 = v := by
  show (if v = 0 then (0 : ℚ) else v) = v
  split_ifs with h
  · exact h.symm
  · rfl

/-! ## Claim theorems -/

/-- C1: the rug-check guard.  Pressing the rugcheck button with an
empty address issues no network request; and from a quiescent state
with a non-empty address, two presses in rapid succession issue exactly
one request — the first press issues the POST, and the second, arriving
while `checkingRug` is still `true`, is refused (the button is
disabled, so no `onClick` fires and `performRugCheck`'s body never
runs). -/
theorem rugcheck_single_flight_guard :
    (∀ st : DashState, st.rugCheckAddress = "" → (rugCheckClick st).2 = []) ∧
    (∀ st : DashState, st.checkingRug = false → st.rugCheckAddress ≠ "" →
      (rugCheckClick st).2 = [Request.postRugcheck st.rugCheckAddress] ∧
      (rugCheckClick (rugCheckClick st).1).2 = []) := by
  constructor
  · intro st h
    simp [rugCheckClick, rugcheckBtnDisabled, performRugCheckStart, h]
  · intro st h1 h2
    have hd : rugcheckBtnDisabled st = false := by
      simp [rugcheckBtnDisabled, h1, h2]
    have hclick : rugCheckClick st =
        ({ st with checkingRug := true },
         [Request.postRugcheck st.rugCheckAddress]) := by
      simp [rugCheckClick, hd, performRugCheckStart, h2]
    refine ⟨by rw [hclick], ?_⟩
    rw [hclick]
    simp [rugCheckClick, rugcheckBtnDisabled]

/-- C1 witness: from the fresh state with address `"tok1"` typed in, the
first press issues exactly the POST for `"tok1"`, the second press while
in flight issues nothing; a press from the fresh state (empty address)
issues nothing. -/
theorem rugcheck_single_flight_guard_witness :
    (rugCheckClick { initState with rugCheckAddress := "tok1" }).2 =
      [Request.postRugcheck "tok1"] ∧
    (rugCheckClick
      (rugCheckClick { initState with rugCheckAddress := "tok1" }).1).2 = [] ∧
    (rugCheckClick initState).2 = [] :=
  ⟨(rugcheck_single_flight_guard.2 _ rfl (by decide)).1,
   (rugcheck_single_flight_guard.2 _ rfl (by decide)).2,
   rugcheck_single_flight_guard.1 initState rfl⟩

/-- C4: an invocation that passes the guard sets `checkingRug` (and the
POST request is issued in that same step); on success the stored result
is replaced by the full response body and a success toast is raised; on
failure the previously stored result is left unchanged and a failure
toast is raised; in both outcomes `checkingRug` is cleared by the
`finally` block before control returns. -/
theorem rugcheck_outcome_contract (st : DashState)
    (h1 : st.checkingRug = false) (h2 : st.rugCheckAddress ≠ "") :
    (rugCheckClick st).1.checkingRug = true ∧
    (rugCheckClick st).2 = [Request.postRugcheck st.rugCheckAddress] ∧
    (rugCheckClick st).1.rugCheckResult = st.rugCheckResult ∧
    (∀ res : RugCheckResult,
      performRugCheckFinish (rugCheckClick st).1 (RugOutcome.ok res) =
        ({ (rugCheckClick st).1 with
            rugCheckResult := some res, checkingRug := false },
         [Toast.success "Rug check complete!"])) ∧
    performRugCheckFinish (rugCheckClick st).1 RugOutcome.failed =
      ({ (rugCheckClick st).1 with checkingRug := false },
       [Toast.error "Rug check failed"]) ∧
    (performRugCheckFinish (rugCheckClick st).1
        RugOutcome.failed).1.rugCheckResult = st.rugCheckResult := by
  have hd : rugcheckBtnDisabled st = false := by
    simp [rugcheckBtnDisabled, h1, h2]
  have hclick : rugCheckClick st =
      ({ st with checkingRug := true },
       [Request.postRugcheck st.rugCheckAddress]) := by
    simp [rugCheckClick, hd, performRugCheckStart, h2]
  rw [hclick]
  exact ⟨rfl, rfl, rfl, fun res => rfl, rfl, rfl⟩

/-- C4 witness: concrete run from a state with address `"tok1"`, on the
success outcome storing a RISKY result and on the failure outcome
keeping the prior (absent) result. -/
theorem rugcheck_outcome_contract_witness :
    (rugCheckClick { initState with rugCheckAddress := "tok1" }).1.checkingRug
        = true ∧
    performRugCheckFinish
        (rugCheckClick { initState with rugCheckAddress := "tok1" }).1
        (RugOutcome.ok ⟨false, 82 / 100, some ["low liquidity"], none⟩) =
      ({ (rugCheckClick { initState with rugCheckAddress := "tok1" }).1 with
          rugCheckResult := some ⟨false, 82 / 100, some ["low liquidity"], none⟩,
          checkingRug := false },
       [Toast.success "Rug check complete!"]) ∧
    (performRugCheckFinish
        (rugCheckClick { initState with rugCheckAddress := "tok1" }).1
        RugOutcome.failed).1.rugCheckResult = none :=
  ⟨(rugcheck_outcome_contract _ rfl (by decide)).1,
   (rugcheck_outcome_contract _ rfl (by decide)).2.2.2.1 _,
   (rugcheck_outcome_contract _ rfl (by decide)).2.2.2.2.2⟩

/-- C6: selecting any of the seven tabs sets `activeTab` to that value
unconditionally, issues no network request, raises no toast, and leaves
every field of the dashboard snapshot unchanged. -/
theorem tab_switch_no_side_effects (st : DashState) (t : Tab) :
    applyAction st (Action.selectTab t) =
      ({ st with activeTab := t }, [], []) ∧
    (applyAction st (Action.selectTab t)).1.stats = st.stats ∧
    (applyAction st (Action.selectTab t)).1.users = st.users ∧
    (applyAction st (Action.selectTab t)).1.trades = st.trades ∧
    (applyAction st (Action.selectTab t)).1.payments = st.payments ∧
    (applyAction st (Action.selectTab t)).1.solPrice = st.solPrice ∧
    (applyAction st (Action.selectTab t)).1.trendingTokens
        = st.trendingTokens ∧
    (applyAction st (Action.selectTab t)).1.whaleActivities
        = st.whaleActivities ∧
    (applyAction st (Action.selectTab t)).1.tradingStats = st.tradingStats ∧
    (applyAction st (Action.selectTab t)).1.activeTab = t :=
  ⟨rfl, rfl, rfl, rfl, rfl, rfl, rfl, rfl, rfl, rfl⟩

/-- C8: the Check action of a trending-token row sets `activeTab` to
`rugcheck` and pre-fills the rug-check address with that token's
address, with no other state change, no network request and no toast. -/
theorem trending_check_prefill (st : DashState) (tok : TrendingToken) :
    applyAction st (Action.pressTrendingCheck tok) =
      ({ st with rugCheckAddress := tok.address, activeTab := Tab.rugcheck },
       [], []) :=
  rfl

/-- C2: if any of the five required requests rejects, the refresh cycle
aborts: every snapshot field is exactly as before the cycle (the result
state is the old state with only `loading := false`), exactly one
user-visible error toast is raised, and the loading flag is false. -/
theorem required_failure_aborts_cycle (st : DashState) (r : FetchResults)
    (h : r.statsR = Fetched.failed ∨ r.usersR = Fetched.failed ∨
         r.tradesR = Fetched.failed ∨ r.paymentsR = Fetched.failed ∨
         r.priceR = Fetched.failed) :
    fetchData st r =
      ({ st with loading := false }, [Toast.error "Failed to fetch data"]) := by
  obtain ⟨s, u, t, p, pr, tk, wh, tr⟩ := r
  cases s <;> cases u <;> cases t <;> cases p <;> cases pr <;>
    simp_all [fetchData]

/-- C2 witness: a cycle whose stats request rejects (everything else
succeeding) leaves the fresh state's snapshot untouched, clears
`loading`, and raises the one error toast. -/
theorem required_failure_aborts_cycle_witness :
    fetchData initState
      ⟨Fetched.failed, Fetched.ok ⟨some []⟩, Fetched.ok ⟨some []⟩,
       Fetched.ok ⟨some []⟩, Fetched.ok ⟨some 100⟩, Fetched.ok ⟨some []⟩,
       Fetched.ok ⟨some []⟩, Fetched.ok TradingStats.empty⟩ =
      ({ initState with loading := false },
       [Toast.error "Failed to fetch data"]) :=
  required_failure_aborts_cycle _ _ (Or.inl rfl)

/-- C3: if exactly one optional request fails while all five required
ones succeed, the cycle succeeds with no toast: the failed feed's field
gets its empty default (`[]` for trending tokens, `[]` for whale
activities, the empty object for trading stats) and every other field
gets the server-provided value (with the code's own absent-key
defaults). -/
theorem optional_failure_isolated (st : DashState) (sd : Stats)
    (ud : UsersResp) (td : TradesResp) (pd : PaymentsResp) (prd : PriceResp)
    (tkd : TrendingResp) (wd : WhaleResp) (trd : TradingStats) :
    fetchData st ⟨.ok sd, .ok ud, .ok td, .ok pd, .ok prd,
        .failed, .ok wd, .ok trd⟩ =
      ({ st with
          stats := some sd
          users := ud.users.getD []
          trades := td.trades.getD []
          payments := pd.payments.getD []
          solPrice := jsNumOr prd.price_usd 0
          trendingTokens := []
          whaleActivities := wd.activities.getD []
          tradingStats := some trd
          loading := false }, []) ∧
    fetchData st ⟨.ok sd, .ok ud, .ok td, .ok pd, .ok prd,
        .ok tkd, .failed, .ok trd⟩ =
      ({ st with
          stats := some sd
          users := ud.users.getD []
          trades := td.trades.getD []
          payments := pd.payments.getD []
          solPrice := jsNumOr prd.price_usd 0
          trendingTokens := tkd.tokens.getD []
          whaleActivities := []
          tradingStats := some trd
          loading := false }, []) ∧
    fetchData st ⟨.ok sd, .ok ud, .ok td, .ok pd, .ok prd,
        .ok tkd, .ok wd, .failed⟩ =
      ({ st with
          stats := some sd
          users := ud.users.getD []
          trades := td.trades.getD []
          payments := pd.payments.getD []
          solPrice := jsNumOr prd.price_usd 0
          trendingTokens := tkd.tokens.getD []
          whaleActivities := wd.activities.getD []
          tradingStats := some TradingStats.empty
          loading := false }, []) :=
  ⟨rfl, rfl, rfl⟩

/-- C5: with all five required feeds succeeding and the five stats
counters present in the response, the overview stat-card values equal
the server-provided values verbatim (the only client-side step is the
`|| 0` default, which is the identity on a present number). -/
theorem counters_verbatim :
    (∀ (st : DashState) (sd : Stats) (ud : UsersResp) (td : TradesResp)
      (pd : PaymentsResp) (prd : PriceResp) (tk : Fetched TrendingResp)
      (wh : Fetched WhaleResp) (tr : Fetched TradingStats) (a b c d e : ℚ),
      sd.total_users = some a → sd.active_wallets = some b →
      sd.total_trades = some c → sd.total_profit_usd = some d →
      sd.whale_activities_today = some e →
      overviewCounters
          (fetchData st ⟨.ok sd, .ok ud, .ok td, .ok pd, .ok prd,
            tk, wh, tr⟩).1 = (a, b, c, d, e)) ∧
    (∀ (st : DashState) (ud : UsersResp) (td : TradesResp)
      (pd : PaymentsResp) (prd : PriceResp) (tk : Fetched TrendingResp)
      (wh : Fetched WhaleResp) (tr : Fetched TradingStats),
      overviewCounters
          (fetchData st ⟨.ok ⟨none, none, none, none, none⟩, .ok ud, .ok td,
            .ok pd, .ok prd, tk, wh, tr⟩).1 = (0, 0, 0, 0, 0)) := by
  constructor
  · intro st sd ud td pd prd tk wh tr a b c d e h1 h2 h3 h4 h5
    simp [fetchData, overviewCounters, h1, h2, h3, h4, h5, jsNumOr_some_zero]
  · intro st ud td pd prd tk wh tr
    rfl

/-- C5 witness: the spec scenario — stats response with total_users 42,
active_wallets 10, total_trades 7, total_profit_usd 13.5,
whale_activities_today 2 and all other required feeds succeeding shows
exactly those five values in the overview. -/
theorem counters_verbatim_witness :
    overviewCounters
        (fetchData initState
          ⟨.ok ⟨some 42, some 10, some 7, some (27 / 2), some 2⟩,
           .ok ⟨some []⟩, .ok ⟨some []⟩, .ok ⟨some []⟩, .ok ⟨some 100⟩,
           .ok ⟨some []⟩, .ok ⟨some []⟩, .ok TradingStats.empty⟩).1 =
      (42, 10, 7, 27 / 2, 2) :=
  counters_verbatim.1 _ _ _ _ _ _ _ _ _ _ _ _ _ _ rfl rfl rfl rfl rfl

/-- C9: a cycle whose five required requests all resolve but whose
response bodies lack the expected payload keys still succeeds silently:
`users`, `trades` and `payments` default to `[]`, `solPrice` defaults
to `0` when `price_usd` is absent — and also when it is present but
falsy (`0`) — `loading` is cleared, and no toast is raised. -/
theorem missing_payload_defaults (st : DashState) (sd : Stats)
    (tk : Fetched TrendingResp) (wh : Fetched WhaleResp)
    (tr : Fetched TradingStats) :
    (fetchData st ⟨.ok sd, .ok ⟨none⟩, .ok ⟨none⟩, .ok ⟨none⟩, .ok ⟨none⟩,
        tk, wh, tr⟩).1.users = [] ∧
    (fetchData st ⟨.ok sd, .ok ⟨none⟩, .ok ⟨none⟩, .ok ⟨none⟩, .ok ⟨none⟩,
        tk, wh, tr⟩).1.trades = [] ∧
    (fetchData st ⟨.ok sd, .ok ⟨none⟩, .ok ⟨none⟩, .ok ⟨none⟩, .ok ⟨none⟩,
        tk, wh, tr⟩).1.payments = [] ∧
    (fetchData st ⟨.ok sd, .ok ⟨none⟩, .ok ⟨none⟩, .ok ⟨none⟩, .ok ⟨none⟩,
        tk, wh, tr⟩).1.solPrice = 0 ∧
    (fetchData st ⟨.ok sd, .ok ⟨none⟩, .ok ⟨none⟩, .ok ⟨none⟩, .ok ⟨none⟩,
        tk, wh, tr⟩).1.loading = false ∧
    (fetchData st ⟨.ok sd, .ok ⟨none⟩, .ok ⟨none⟩, .ok ⟨none⟩, .ok ⟨none⟩,
        tk, wh, tr⟩).2 = [] ∧
    (fetchData st ⟨.ok sd, .ok ⟨none⟩, .ok ⟨none⟩, .ok ⟨none⟩,
        .ok ⟨some 0⟩, tk, wh, tr⟩).1.solPrice = 0 :=
  ⟨rfl, rfl, rfl, rfl, rfl, rfl, rfl⟩

/-- C10: the loading flag is monotone.  It starts `true`; every
completed refresh cycle (success or failure) ends with it `false`; and
no operation of the component — refresh, tab switch, address input, rug
check press or completion, trending Check — ever sets it back to
`true`, so once the first cycle completes the full-screen loading
indicator never renders again along any sequence of operations. -/
theorem loading_monotone :
    initState.loading = true ∧
    (∀ (st : DashState) (r : FetchResults),
      (fetchData st r).1.loading = false) ∧
    (∀ (st : DashState) (a : Action), st.loading = false →
      (applyAction st a).1.loading = false) ∧
    (∀ (st : DashState) (acts : List Action), st.loading = false →
      rendersLoadingScreen (runActions st acts) = false) := by
  have hfetch : ∀ (st : DashState) (r : FetchResults),
      (fetchData st r).1.loading = false := by
    intro st r
    obtain ⟨s, u, t, p, pr, tk, wh, tr⟩ := r
    cases s <;> cases u <;> cases t <;> cases p <;> cases pr <;> rfl
  have hstep : ∀ (st : DashState) (a : Action), st.loading = false →
      (applyAction st a).1.loading = false := by
    intro st a h
    cases a with
    | refresh r => exact hfetch st r
    | selectTab t => exact h
    | setAddress s => exact h
    | pressRugCheck =>
      show (rugCheckClick st).1.loading = false
      unfold rugCheckClick performRugCheckStart
      split_ifs <;> exact h
    | finishRugCheck o =>
      show (performRugCheckFinish st o).1.loading = false
      cases o <;> exact h
    | pressTrendingCheck tok => exact h
  refine ⟨rfl, hfetch, hstep, ?_⟩
  intro st acts
  induction acts generalizing st with
  | nil => intro h; exact h
  | cons a rest ih =>
    intro h
    exact ih _ (hstep st a h)

/-- C10 witness: after the first cycle has cleared `loading`, a tab
switch keeps it cleared, and so does a whole operation sequence (rug
check press, then a failed cycle). -/
theorem loading_monotone_witness :
    (applyAction { initState with loading := false }
        (Action.selectTab Tab.trending)).1.loading = false ∧
    rendersLoadingScreen
        (runActions { initState with loading := false }
          [Action.pressRugCheck,
           Action.refresh ⟨Fetched.failed, Fetched.failed, Fetched.failed,
             Fetched.failed, Fetched.failed, Fetched.failed, Fetched.failed,
             Fetched.failed⟩]) = false :=
  ⟨loading_monotone.2.2.1 _ _ rfl, loading_monotone.2.2.2 _ _ rfl⟩

/-- C7: the mount effect runs one refresh immediately and starts a
30000 ms interval timer; while mounted, exactly `elapsed / 30000`
timer-driven cycles fire within `elapsed` ms of the mount — in
particular exactly `n` cycles per `n * 30000` ms of elapsed time; after
the cleanup clears the timer, zero timer-driven cycles fire at any
later time. -/
theorem shell_timer_cadence (now n elapsed stop : ℕ) :
    (mountShell now).immediateCycles = 1 ∧
    timerCycles (mountShell now) (now + elapsed) = elapsed / 30000 ∧
    timerCycles (mountShell now) (now + n * 30000) = n ∧
    timerCycles (unmountShell (mountShell now)) stop = 0 := by
  have key : ∀ e : ℕ, timerCycles (mountShell now) (now + e) = e / 30000 := by
    intro e
    show firesUpTo (setIntervalAt now 30000) (now + e) = e / 30000
    unfold setIntervalAt firesUpTo
    dsimp only
    split_ifs with h <;> omega
  refine ⟨rfl, key elapsed, ?_, rfl⟩
  rw [key (n * 30000)]
  omega

end SolanaSoldier
